import Mathlib

/-!
# DaVinci remote-processor driver (`drivers/remoteproc/davinci_remoteproc.c`)

A shallow embedding of the driver's lifecycle operations (`probe`, `start`,
`stop`, `kick`), its interrupt handler and its deferred work function.

* C variables that the driver owns (the globals `syscfg0_base`,
  `remoteprocdev`, `workqueue` and the field `drproc->dsp_clk`) are fields of
  `State`.
* Every call into the kernel or the hardware (`request_irq`, `clk_get`,
  `__raw_writel`, ...) is recorded, in program order, as an `Event` appended to
  `State.log`.  What such a call returns is an argument of the embedded
  function (an oracle), so every theorem holds for all outcomes.
* Only the branches that the preprocessor keeps are embedded (`#else` of the
  `#if 0` in `davinci_rproc_start`, the `#if 1` branch of `davinci_rproc_stop`).
* `pr_info` / `dev_err` logging is not modelled.
* The target is 32-bit ARM: pointers, `long` and `int` are 32 bits wide.
-/

namespace DavinciRproc

/-! ## Constants of the source file -/

/-- The constant `#define LRST BIT(8)`: local reset bit of MDCTL15 (0 is asserted). -/
def LRST : Nat := 1 <<< 8

/-- The constant `#define NEXT_ENABLED 0x3`: next-state bits of MDCTL15. -/
def NEXT_ENABLED : Nat := 0x3

/-- The constant `#define HOST1CFG 0x44`: DSP boot address register in SYSCFG0. -/
def HOST1CFG : Nat := 0x44

/-- The constant `#define SYSCFG_CHIPSIG_OFFSET 0x174`. -/
def SYSCFG_CHIPSIG_OFFSET : Nat := 0x174

/-- The constant `#define SYSCFG_CHIPSIG_CLR_OFFSET 0x178`. -/
def SYSCFG_CHIPSIG_CLR_OFFSET : Nat := 0x178

/-- The constant `#define SYSCFG_CHIPINT0 (1 << 0)`. -/
def SYSCFG_CHIPINT0 : Nat := 1 <<< 0

/-- The constant `#define SYSCFG_CHIPINT2 (1 << 2)`. -/
def SYSCFG_CHIPINT2 : Nat := 1 <<< 2

/-! ## Kernel constants and helpers used by the source file -/

/-- Errno `EINVAL` of the kernel headers. -/
def EINVAL : Int := 22

/-- Errno `ENOMEM` of the kernel headers. -/
def ENOMEM : Int := 12

/-- Value `IRQ_NONE` of `enum irqreturn`. -/
def IRQ_NONE : Nat := 0

/-- Value `IRQ_HANDLED` of `enum irqreturn`. -/
def IRQ_HANDLED : Nat := 1

/-- The constant `MAX_ERRNO` of `linux/err.h`. -/
def MAX_ERRNO : Nat := 4095

/-- Width of a pointer, of `long` and of `int` on the 32-bit ARM target. -/
def WORD : Nat := 2 ^ 32

/-- The test `IS_ERR_VALUE(x)` of `linux/err.h`: `x >= (unsigned long)-MAX_ERRNO`. -/
def IS_ERR_VALUE (x : Nat) : Bool := decide (WORD - MAX_ERRNO ≤ x % WORD)

/-- The test `IS_ERR_OR_NULL(ptr)` of `linux/err.h`: `!ptr || IS_ERR_VALUE(ptr)`. -/
def IS_ERR_OR_NULL (ptr : Nat) : Bool := decide (ptr % WORD = 0) || IS_ERR_VALUE ptr

/-- The cast `PTR_ERR(ptr)` of `linux/err.h`: `(long) ptr`, the pointer read as a
signed word. -/
def PTR_ERR (ptr : Nat) : Int :=
  if ptr % WORD < WORD / 2 then (ptr % WORD : Nat) else ((ptr % WORD : Nat) : Int) - (WORD : Nat)

/-- Values of `mach/psc.h` that the source uses and that are not among the
source files: the offset `MDCTL` of the module control registers and the module
number `DA8XX_LPSC0_GEM` of the DSP. -/
structure MachConsts where
  MDCTL : Nat
  DA8XX_LPSC0_GEM : Nat
  deriving DecidableEq, Repr

/-- The values of `mach/psc.h` on DA850 / OMAP-L138. -/
def da850 : MachConsts := { MDCTL := 0xA00, DA8XX_LPSC0_GEM := 15 }

/-! ## Data model -/

/-- A `void __iomem *` base: `NULL` (the initial value of the global
`syscfg0_base`), or the mapping returned by `ioremap` for one of the two
physical regions the driver maps. -/
inductive IoMem
  | null
  | psc      -- ioremap(soc_info->psc_bases[0], SZ_4K)
  | syscfg0  -- ioremap(DA8XX_SYSCFG0_BASE, SZ_4K)
  deriving DecidableEq, Repr

/-- One call out of the driver, with its arguments and (where the driver looks
at it) its result. -/
inductive Event
  | INIT_WORK                                     -- INIT_WORK(&workqueue, handle_event)
  | request_irq (irq : Nat) (dev_id : Nat) (ret : Int)
  | free_irq (irq : Nat) (dev_id : Nat)
  | clk_get (clk : Nat)
  | clk_enable (clk : Nat)
  | clk_disable (clk : Nat)
  | clk_put (clk : Nat)
  | ioremap (m : IoMem)
  | iounmap (m : IoMem)
  | readl (base : IoMem) (off : Nat) (val : Nat)  -- __raw_readl(base + off) returned val
  | writel (val : Nat) (base : IoMem) (off : Nat) -- __raw_writel(val, base + off)
  | schedule_work (ret : Bool)
  | flush_work_sync
  | rproc_vq_interrupt (idx : Nat) (ret : Nat)
  | dma_set_coherent_mask (ret : Int)
  | rproc_alloc (rproc : Nat)
  | platform_set_drvdata (pdev : Nat) (rproc : Nat)
  | rproc_register (ret : Int)
  | rproc_free (rproc : Nat)
  deriving DecidableEq, Repr

/-- The fields of `struct rproc` that the driver reads: `bootaddr`, the
platform device behind `rproc->dev`, and `rproc->priv` (the `davinci_rproc`,
also used as the `dev_id` cookie of the interrupt). -/
structure Rproc where
  bootaddr : Nat
  pdev : Nat
  priv : Nat
  deriving DecidableEq, Repr

/-- The driver's own variables together with the log of its calls. -/
structure State where
  /-- global `void __iomem *syscfg0_base` -/
  syscfg0_base : IoMem
  /-- global `struct platform_device *remoteprocdev` (0 is `NULL`) -/
  remoteprocdev : Nat
  /-- global `workqueue`: whether `workqueue.func` is `handle_event` -/
  workqueue : Bool
  /-- field `drproc->dsp_clk` (0 is `NULL`) -/
  dsp_clk : Nat
  /-- calls made so far, oldest first -/
  log : List Event
  deriving DecidableEq, Repr

/-- State at module load: zero-initialised globals, nothing called yet. -/
def State.init : State :=
  { syscfg0_base := .null, remoteprocdev := 0, workqueue := false, dsp_clk := 0, log := [] }

/-- Record one call. -/
def emit (e : Event) (s : State) : State := { s with log := s.log ++ [e] }

/-- The call `__raw_writel(val, base + off)`; the value is a `u32`. -/
def raw_writel (val : Nat) (base : IoMem) (off : Nat) (s : State) : State :=
  emit (.writel (val % WORD) base off) s

/-! ## The driver's functions -/

/-- Loop `while (IRQ_HANDLED == rproc_vq_interrupt(rproc, 0));` of `handle_event`.
`rets` lists what the successive calls return.  The result is the calls made and
whether the loop has ended (`false`: every listed call returned `IRQ_HANDLED`, the
loop is still running). -/
def handle_event_loop : List Nat → List Event × Bool
  | [] => ([], false)
  | r :: rs =>
    if IRQ_HANDLED = r then
      ((Event.rproc_vq_interrupt 0 r) :: (handle_event_loop rs).1, (handle_event_loop rs).2)
    else ([Event.rproc_vq_interrupt 0 r], true)

/-- Function `handle_event`: drain vring 0, then one `rproc_vq_interrupt(rproc, 1)`
whose result `ret1` is ignored.  The Boolean tells whether the function returned.
The lookup `platform_get_drvdata(remoteprocdev)` has no effect and is not recorded. -/
def handle_event (rets : List Nat) (ret1 : Nat) (s : State) : State × Bool :=
  let r := handle_event_loop rets
  let s := { s with log := s.log ++ r.1 }
  if r.2 then (emit (.rproc_vq_interrupt 1 ret1) s, true)
  else (s, false)

/-- Function `davinci_rproc_callback`: `status` is what the read of the
CHIPSIG register returns, `sched` what `schedule_work` returns. -/
def davinci_rproc_callback (status : Nat) (sched : Bool) (s : State) : Nat × State :=
  let s := emit (.readl s.syscfg0_base SYSCFG_CHIPSIG_OFFSET status) s
  if status &&& SYSCFG_CHIPINT0 ≠ 0 then
    let s := emit (.schedule_work sched) s
    let s := raw_writel SYSCFG_CHIPINT0 s.syscfg0_base SYSCFG_CHIPSIG_CLR_OFFSET s
    (IRQ_HANDLED, s)
  else
    (IRQ_HANDLED, s)

/-- Function `davinci_rproc_start` (the `#else` branch is the compiled one).
`irq_ret` is what `request_irq` returns and `clk` what `clk_get` returns. -/
def davinci_rproc_start (rproc : Rproc) (irq_ret : Int) (clk : Nat) (s : State) :
    Int × State :=
  let s := emit .INIT_WORK { s with workqueue := true }
  let s := { s with remoteprocdev := rproc.pdev }
  let s := emit (.request_irq 28 rproc.priv irq_ret) s
  if irq_ret ≠ 0 then (irq_ret, s)
  else if rproc.bootaddr &&& 0x3ff ≠ 0 then (-EINVAL, s)
  else
    let s := emit (.clk_get clk) s
    if IS_ERR_OR_NULL clk then (PTR_ERR clk, s)
    else
      let s := emit (.ioremap .syscfg0) { s with syscfg0_base := .syscfg0 }
      let s := raw_writel rproc.bootaddr s.syscfg0_base HOST1CFG s
      let s := emit (.clk_enable clk) s
      let s := { s with dsp_clk := clk }
      (0, s)

/-- Function `davinci_rproc_stop` (the `#if 1` branch). -/
def davinci_rproc_stop (mc : MachConsts) (rproc : Rproc) (s : State) : Int × State :=
  let dsp_clk := s.dsp_clk
  let psc_base := IoMem.psc
  let s := emit (.ioremap .psc) s
  let s := raw_writel NEXT_ENABLED psc_base (mc.MDCTL + 4 * mc.DA8XX_LPSC0_GEM) s
  let s := emit (.clk_disable dsp_clk) s
  let s := emit (.clk_put dsp_clk) s
  let s := emit (.iounmap psc_base) s
  let s := emit (.free_irq 28 rproc.priv) s
  let s := emit .flush_work_sync s
  (0, s)

/-- Loop `while (__raw_readl(syscfg0_base + SYSCFG_CHIPSIG_OFFSET) & SYSCFG_CHIPINT2);`
of `davinci_rproc_kick`.  `reads` lists what the successive reads return.  The
result is the reads made and whether the loop has ended (`false`: every listed
read had the bit set, the loop is still spinning). -/
def kick_loop (base : IoMem) : List Nat → List Event × Bool
  | [] => ([], false)
  | v :: vs =>
    if v &&& SYSCFG_CHIPINT2 ≠ 0 then
      ((Event.readl base SYSCFG_CHIPSIG_OFFSET v) :: (kick_loop base vs).1, (kick_loop base vs).2)
    else ([Event.readl base SYSCFG_CHIPSIG_OFFSET v], true)

/-- Function `davinci_rproc_kick` (`vqid` is unused by the source).  The Boolean
tells whether the function returned. -/
def davinci_rproc_kick (reads : List Nat) (s : State) : State × Bool :=
  let r := kick_loop s.syscfg0_base reads
  let s := { s with log := s.log ++ r.1 }
  if r.2 then (raw_writel SYSCFG_CHIPINT2 s.syscfg0_base SYSCFG_CHIPSIG_OFFSET s, true)
  else (s, false)

/-- Function `davinci_rproc_probe`.  `dma_ret`, `rproc` and `reg_ret` are what
`dma_set_coherent_mask`, `rproc_alloc` and `rproc_register` return.  The store
`drproc->rproc = rproc` into the freshly allocated instance is not recorded. -/
def davinci_rproc_probe (mc : MachConsts) (pdev : Nat) (dma_ret : Int) (rproc : Nat)
    (reg_ret : Int) (s : State) : Int × State :=
  let s := emit (.dma_set_coherent_mask dma_ret) s
  if dma_ret ≠ 0 then (dma_ret, s)
  else
    let s := emit (.rproc_alloc rproc) s
    if rproc % WORD = 0 then (-ENOMEM, s)
    else
      let s := emit (.platform_set_drvdata pdev rproc) s
      let s := emit (.rproc_register reg_ret) s
      if reg_ret ≠ 0 then (reg_ret, emit (.rproc_free rproc) s)
      else
        let psc_base := IoMem.psc
        let s := emit (.ioremap .psc) s
        let s := raw_writel NEXT_ENABLED psc_base (mc.MDCTL + 4 * mc.DA8XX_LPSC0_GEM) s
        let s := emit (.iounmap psc_base) s
        (0, s)

/-! ## Observations on the call log -/

/-- Register writes (calls of `__raw_writel`) of a log, in order. -/
def regWrites (l : List Event) : List Event :=
  l.filter (fun e => match e with
    | .writel _ _ _ => true
    | _ => false)

/-- Values written to the reset-control register `psc_base + MDCTL + 4 * DA8XX_LPSC0_GEM`
(MDCTL15), in order. -/
def resetWrites (mc : MachConsts) (l : List Event) : List Nat :=
  l.filterMap (fun e => match e with
    | .writel v .psc off => if off = mc.MDCTL + 4 * mc.DA8XX_LPSC0_GEM then some v else none
    | _ => none)

/-- Clock calls (`clk_get`, `clk_enable`, `clk_disable`, `clk_put`) of a log, in order. -/
def clkCalls (l : List Event) : List Event :=
  l.filter (fun e => match e with
    | .clk_get _ => true
    | .clk_enable _ => true
    | .clk_disable _ => true
    | .clk_put _ => true
    | _ => false)

/-- A write to the boot-config register `syscfg0_base + HOST1CFG`. -/
def isBootCfgWrite : Event → Bool
  | .writel _ .syscfg0 off => decide (off = HOST1CFG)
  | _ => false

/-- A call of `clk_enable`. -/
def isClkEnable : Event → Bool
  | .clk_enable _ => true
  | _ => false

/-- The calls by which `davinci_rproc_stop` gives resources back: `clk_disable`,
`clk_put`, `free_irq`, `iounmap`. -/
def isTeardown : Event → Bool
  | .clk_disable _ => true
  | .clk_put _ => true
  | .free_irq _ _ => true
  | .iounmap _ => true
  | _ => false

/-! ## Sequences of operations -/

/-- One invocation of a driver entry point on the probed instance, together with
what its calls into the kernel and its register reads return. -/
inductive Op
  | start (rproc : Rproc) (irq_ret : Int) (clk : Nat)
  | stop (rproc : Rproc)
  | kick (reads : List Nat)
  | callback (status : Nat) (sched : Bool)
  | work (rets : List Nat) (ret1 : Nat)
  deriving DecidableEq, Repr

/-- The state after one invocation.  A `kick` or `handle_event` whose loop has not
ended within the listed results leaves the calls it made so far; the remainder of
the loop is a later invocation with the later results. -/
def Op.exec (mc : MachConsts) : Op → State → State
  | .start rproc irq_ret clk, s => (davinci_rproc_start rproc irq_ret clk s).2
  | .stop rproc, s => (davinci_rproc_stop mc rproc s).2
  | .kick reads, s => (davinci_rproc_kick reads s).1
  | .callback status sched, s => (davinci_rproc_callback status sched s).2
  | .work rets ret1, s => (handle_event rets ret1 s).1

/-- The state after a sequence of invocations, first to last. -/
def run (mc : MachConsts) : List Op → State → State
  | [], s => s
  | op :: ops, s => run mc ops (op.exec mc s)

/-- In log `l`, at every boot-config write and every `clk_enable` the most recent
value written to the reset-control register is `NEXT_ENABLED`. -/
def HaltedAtBoot (mc : MachConsts) (l : List Event) : Prop :=
  ∀ pre e post, l = pre ++ e :: post → (isBootCfgWrite e = true ∨ isClkEnable e = true) →
    (resetWrites mc pre).getLast? = some NEXT_ENABLED

/-! ## Auxiliary facts -/

theorem and_0x3ff (x : Nat) : x &&& 0x3ff = x % 1024 := by
  have h := Nat.and_pow_two_sub_one_eq_mod x 10
  simpa using h

theorem and_two_pow_ne_zero (x i : Nat) : x &&& 2 ^ i ≠ 0 ↔ x.testBit i = true := by
  constructor
  · intro h
    by_contra hb
    apply h
    apply Nat.eq_of_testBit_eq
    intro j
    by_cases hj : i = j
    · subst hj
      simp [Nat.testBit_and, hb]
    · simp [Nat.testBit_and, Nat.testBit_two_pow, hj]
  · intro hb h
    have h2 : (x &&& 2 ^ i).testBit i = true := by
      simp [Nat.testBit_and, Nat.testBit_two_pow, hb]
    rw [h] at h2
    simp at h2

theorem chipint0_test (x : Nat) : x &&& SYSCFG_CHIPINT0 ≠ 0 ↔ x.testBit 0 = true :=
  and_two_pow_ne_zero x 0

theorem chipint2_test (x : Nat) : x &&& SYSCFG_CHIPINT2 ≠ 0 ↔ x.testBit 2 = true :=
  and_two_pow_ne_zero x 2

theorem regWrites_append (a b : List Event) : regWrites (a ++ b) = regWrites a ++ regWrites b := by
  simp [regWrites]

theorem resetWrites_append (mc : MachConsts) (a b : List Event) :
    resetWrites mc (a ++ b) = resetWrites mc a ++ resetWrites mc b := by
  simp [resetWrites]

theorem clkCalls_append (a b : List Event) : clkCalls (a ++ b) = clkCalls a ++ clkCalls b := by
  simp [clkCalls]

/-! ## `davinci_rproc_start` -/

/-- C1 (as stated, refuted): with the misaligned boot address 0x80000401 and a
`request_irq` that fails with -16 (`-EBUSY`), `davinci_rproc_start` returns -16,
not `-EINVAL`. -/
theorem start_misaligned_irq_error_not_einval :
    0x80000401 % 1024 ≠ 0 ∧
    (davinci_rproc_start ⟨0x80000401, 7, 9⟩ (-16) 0xc0001000 State.init).1 = -16 ∧
    (davinci_rproc_start ⟨0x80000401, 7, 9⟩ (-16) 0xc0001000 State.init).1 ≠ -EINVAL := by
  decide

/-- C1 (amended): for every boot address with `bootaddr mod 1024 ≠ 0`,
`davinci_rproc_start` performs no register write, whatever `request_irq` and
`clk_get` would return; it returns `-EINVAL` when `request_irq` succeeds and the
error code of `request_irq` when that fails. -/
theorem start_misaligned_result (rproc : Rproc) (irq_ret : Int) (clk : Nat) (s : State)
    (h : rproc.bootaddr % 1024 ≠ 0) :
    (davinci_rproc_start rproc irq_ret clk s).1 = (if irq_ret = 0 then -EINVAL else irq_ret) ∧
    regWrites (davinci_rproc_start rproc irq_ret clk s).2.log = regWrites s.log := by
  have hm : rproc.bootaddr &&& 0x3ff ≠ 0 := by rw [and_0x3ff]; exact h
  by_cases hi : irq_ret = 0
  · simp [davinci_rproc_start, emit, hi, hm, regWrites]
  · simp [davinci_rproc_start, emit, hi, regWrites]

/-- Instance of C1 (amended) at Scenario B: boot address 0x80000401, `request_irq` succeeds. -/
theorem start_misaligned_result_witness :
    (davinci_rproc_start ⟨0x80000401, 7, 9⟩ 0 0xc0001000 State.init).1
        = (if (0 : Int) = 0 then -EINVAL else 0) ∧
    regWrites (davinci_rproc_start ⟨0x80000401, 7, 9⟩ 0 0xc0001000 State.init).2.log
        = regWrites State.init.log :=
  start_misaligned_result ⟨0x80000401, 7, 9⟩ 0 0xc0001000 State.init (by decide)

/-- C2 (as stated, refuted): with the misaligned boot address 0x80000401 the
state after `davinci_rproc_start` differs from the state before: the work item
is initialised, `remoteprocdev` is set, and `request_irq` has been called on
line 28 and has succeeded. -/
theorem start_misaligned_changes_state :
    0x80000401 % 1024 ≠ 0 ∧
    (davinci_rproc_start ⟨0x80000401, 7, 9⟩ 0 0xc0001000 State.init).2 ≠ State.init ∧
    (davinci_rproc_start ⟨0x80000401, 7, 9⟩ 0 0xc0001000 State.init).2.workqueue = true ∧
    (davinci_rproc_start ⟨0x80000401, 7, 9⟩ 0 0xc0001000 State.init).2.remoteprocdev = 7 ∧
    Event.request_irq 28 9 0 ∈
      (davinci_rproc_start ⟨0x80000401, 7, 9⟩ 0 0xc0001000 State.init).2.log := by
  decide

/-- C2 (amended): for every boot address with `bootaddr mod 1024 ≠ 0`, the state
after `davinci_rproc_start` is the state before it except that the work item has
been initialised, `remoteprocdev` has been set to the instance's platform device,
and `request_irq` has been called on line 28 (with whatever result); no clock is
acquired or enabled, no register is mapped or written. -/
theorem start_misaligned_state (rproc : Rproc) (irq_ret : Int) (clk : Nat) (s : State)
    (h : rproc.bootaddr % 1024 ≠ 0) :
    (davinci_rproc_start rproc irq_ret clk s).2 =
      { s with workqueue := true,
               remoteprocdev := rproc.pdev,
               log := s.log ++ [Event.INIT_WORK, Event.request_irq 28 rproc.priv irq_ret] } ∧
    clkCalls (davinci_rproc_start rproc irq_ret clk s).2.log = clkCalls s.log := by
  have hm : rproc.bootaddr &&& 0x3ff ≠ 0 := by rw [and_0x3ff]; exact h
  by_cases hi : irq_ret = 0
  · simp [davinci_rproc_start, emit, hi, hm, clkCalls]
  · simp [davinci_rproc_start, emit, hi, clkCalls]

/-- Instance of C2 (amended) at Scenario B: boot address 0x80000401, started from the load-time state. -/
theorem start_misaligned_state_witness :
    (davinci_rproc_start ⟨0x80000401, 7, 9⟩ 0 0xc0001000 State.init).2 =
      { State.init with workqueue := true,
                        remoteprocdev := 7,
                        log := State.init.log ++ [Event.INIT_WORK, Event.request_irq 28 9 0] } ∧
    clkCalls (davinci_rproc_start ⟨0x80000401, 7, 9⟩ 0 0xc0001000 State.init).2.log
      = clkCalls State.init.log :=
  start_misaligned_state ⟨0x80000401, 7, 9⟩ 0 0xc0001000 State.init (by decide)

/-- C3 (the code at the failing input): with the aligned boot address 0x80000400,
a successful `request_irq` and a `clk_get` that returns `NULL`, the clock counts as
unavailable (`IS_ERR_OR_NULL`), yet `davinci_rproc_start` returns `PTR_ERR(NULL)`,
which is 0, the success code; it writes no register and enables no clock. -/
theorem start_clk_null_returns_zero :
    0x80000400 % 1024 = 0 ∧
    IS_ERR_OR_NULL 0 = true ∧
    (davinci_rproc_start ⟨0x80000400, 7, 9⟩ 0 0 State.init).1 = 0 ∧
    (davinci_rproc_start ⟨0x80000400, 7, 9⟩ 0 0 State.init).2.log =
      [Event.INIT_WORK, Event.request_irq 28 9 0, Event.clk_get 0] := by
  decide

/-- When `clk_get` returns an error pointer (`IS_ERR_VALUE`), an aligned
`davinci_rproc_start` whose `request_irq` succeeded returns the non-zero code
`PTR_ERR(clk)` after `clk_get`, with no register write and no `clk_enable`. -/
theorem start_clk_error_pointer (rproc : Rproc) (clk : Nat) (s : State)
    (hal : rproc.bootaddr % 1024 = 0) (herr : IS_ERR_VALUE clk = true) :
    (davinci_rproc_start rproc 0 clk s).1 = PTR_ERR clk ∧
    (davinci_rproc_start rproc 0 clk s).1 ≠ 0 ∧
    (davinci_rproc_start rproc 0 clk s).2.log =
      s.log ++ [Event.INIT_WORK, Event.request_irq 28 rproc.priv 0, Event.clk_get clk] := by
  have hm : rproc.bootaddr &&& 0x3ff = 0 := by rw [and_0x3ff]; exact hal
  have hc : IS_ERR_OR_NULL clk = true := by simp [IS_ERR_OR_NULL, herr]
  have hne : PTR_ERR clk ≠ 0 := by
    simp only [IS_ERR_VALUE, WORD, MAX_ERRNO, decide_eq_true_eq] at herr
    simp only [PTR_ERR, WORD]
    have hlt : clk % 2 ^ 32 < 2 ^ 32 := Nat.mod_lt _ (by norm_num)
    split_ifs with h
    · omega
    · push_cast
      omega
  simp [davinci_rproc_start, emit, hm, hc, hne]

/-- C4: for every boot address that is a multiple of 1024 (a `u32`), when
`request_irq` returns 0 and `clk_get` returns a usable clock,
`davinci_rproc_start` returns 0 and its calls are, in order: `INIT_WORK`,
`request_irq`, `clk_get`, `ioremap` of SYSCFG0, one write of exactly `bootaddr`
to offset 0x44 of that region, and then `clk_enable`; that write is the only
register write of the call. -/
theorem start_success_programs_bootaddr (rproc : Rproc) (clk : Nat) (s : State)
    (hal : rproc.bootaddr % 1024 = 0) (h32 : rproc.bootaddr < 2 ^ 32)
    (hclk : IS_ERR_OR_NULL clk = false) :
    (davinci_rproc_start rproc 0 clk s).1 = 0 ∧
    (davinci_rproc_start rproc 0 clk s).2.log =
      s.log ++ [Event.INIT_WORK, Event.request_irq 28 rproc.priv 0, Event.clk_get clk,
                Event.ioremap IoMem.syscfg0,
                Event.writel rproc.bootaddr IoMem.syscfg0 0x44,
                Event.clk_enable clk] ∧
    regWrites (davinci_rproc_start rproc 0 clk s).2.log =
      regWrites s.log ++ [Event.writel rproc.bootaddr IoMem.syscfg0 0x44] := by
  have hm : rproc.bootaddr &&& 0x3ff = 0 := by rw [and_0x3ff]; exact hal
  have hw : rproc.bootaddr % WORD = rproc.bootaddr := Nat.mod_eq_of_lt (by simpa [WORD] using h32)
  simp [davinci_rproc_start, emit, raw_writel, hm, hclk, hw, HOST1CFG, regWrites]

/-- Instance of C4 at Scenario A: boot address 0x80000400. -/
theorem start_success_programs_bootaddr_witness :
    (davinci_rproc_start ⟨0x80000400, 7, 9⟩ 0 0xc0001000 State.init).1 = 0 ∧
    (davinci_rproc_start ⟨0x80000400, 7, 9⟩ 0 0xc0001000 State.init).2.log =
      State.init.log ++ [Event.INIT_WORK, Event.request_irq 28 9 0, Event.clk_get 0xc0001000,
                Event.ioremap IoMem.syscfg0,
                Event.writel 0x80000400 IoMem.syscfg0 0x44,
                Event.clk_enable 0xc0001000] ∧
    regWrites (davinci_rproc_start ⟨0x80000400, 7, 9⟩ 0 0xc0001000 State.init).2.log =
      regWrites State.init.log ++ [Event.writel 0x80000400 IoMem.syscfg0 0x44] :=
  start_success_programs_bootaddr ⟨0x80000400, 7, 9⟩ 0xc0001000 State.init
    (by decide) (by decide) (by decide)

/-- C5 (as stated, refuted): in the successful start of Scenario A (boot address
0x80000400) no value at all is written to the reset-control register; the only
register write, hence the first and the last one, is the boot-address write. -/
theorem start_success_no_reset_write :
    0x80000400 % 1024 = 0 ∧
    IS_ERR_OR_NULL 0xc0001000 = false ∧
    (davinci_rproc_start ⟨0x80000400, 7, 9⟩ 0 0xc0001000 State.init).1 = 0 ∧
    resetWrites da850 (davinci_rproc_start ⟨0x80000400, 7, 9⟩ 0 0xc0001000 State.init).2.log = [] ∧
    (regWrites (davinci_rproc_start ⟨0x80000400, 7, 9⟩ 0 0xc0001000 State.init).2.log).head?
      = some (Event.writel 0x80000400 IoMem.syscfg0 HOST1CFG) ∧
    (regWrites (davinci_rproc_start ⟨0x80000400, 7, 9⟩ 0 0xc0001000 State.init).2.log).getLast?
      = some (Event.writel 0x80000400 IoMem.syscfg0 HOST1CFG) := by
  decide

/-- C5 (amended): for every boot address that is a multiple of 1024, when
`request_irq` returns 0 and `clk_get` returns a usable clock,
`davinci_rproc_start` returns 0 and writes nothing to the reset-control register
(neither the halt nor the released pattern); its last register write is the
boot-address write and its last call is `clk_enable`. -/
theorem start_success_leaves_reset_control (mc : MachConsts) (rproc : Rproc) (clk : Nat)
    (s : State) (hal : rproc.bootaddr % 1024 = 0) (hclk : IS_ERR_OR_NULL clk = false) :
    (davinci_rproc_start rproc 0 clk s).1 = 0 ∧
    resetWrites mc (davinci_rproc_start rproc 0 clk s).2.log = resetWrites mc s.log ∧
    (regWrites (davinci_rproc_start rproc 0 clk s).2.log).getLast?
      = some (Event.writel (rproc.bootaddr % 2 ^ 32) IoMem.syscfg0 HOST1CFG) ∧
    (davinci_rproc_start rproc 0 clk s).2.log.getLast? = some (Event.clk_enable clk) := by
  have hm : rproc.bootaddr &&& 0x3ff = 0 := by rw [and_0x3ff]; exact hal
  simp [davinci_rproc_start, emit, raw_writel, hm, hclk, regWrites, resetWrites, WORD,
    List.getLast?_append]

/-- Instance of C5 (amended) at Scenario A on DA850. -/
theorem start_success_leaves_reset_control_witness :
    (davinci_rproc_start ⟨0x80000400, 7, 9⟩ 0 0xc0001000 State.init).1 = 0 ∧
    resetWrites da850 (davinci_rproc_start ⟨0x80000400, 7, 9⟩ 0 0xc0001000 State.init).2.log
      = resetWrites da850 State.init.log ∧
    (regWrites (davinci_rproc_start ⟨0x80000400, 7, 9⟩ 0 0xc0001000 State.init).2.log).getLast?
      = some (Event.writel (0x80000400 % 2 ^ 32) IoMem.syscfg0 HOST1CFG) ∧
    (davinci_rproc_start ⟨0x80000400, 7, 9⟩ 0 0xc0001000 State.init).2.log.getLast?
      = some (Event.clk_enable 0xc0001000) :=
  start_success_leaves_reset_control da850 ⟨0x80000400, 7, 9⟩ 0xc0001000 State.init
    (by decide) (by decide)

/-! ## `davinci_rproc_stop` -/

/-- C6 (as stated, refuted): in the log of `davinci_rproc_stop` the call
`flush_work_sync` is preceded by `clk_disable`, `clk_put`, `iounmap` and
`free_irq`. -/
theorem stop_teardown_precedes_flush :
    ∃ pre post,
      (davinci_rproc_stop da850 ⟨0x80000400, 7, 9⟩ State.init).2.log
        = pre ++ Event.flush_work_sync :: post ∧
      Event.clk_disable 0 ∈ pre ∧ Event.clk_put 0 ∈ pre ∧
      Event.iounmap IoMem.psc ∈ pre ∧ Event.free_irq 28 9 ∈ pre ∧
      ∃ e ∈ pre, isTeardown e = true :=
  ⟨[Event.ioremap IoMem.psc, Event.writel 3 IoMem.psc 2620, Event.clk_disable 0,
    Event.clk_put 0, Event.iounmap IoMem.psc, Event.free_irq 28 9], [],
   by decide, by decide, by decide, by decide, by decide,
   Event.clk_disable 0, by decide, by decide⟩

/-- C6 (amended): `davinci_rproc_stop` returns 0 and `flush_work_sync` is the last
call of its log; it comes after the halt write to the reset-control register,
`clk_disable`, `clk_put`, `iounmap` of the PSC region and `free_irq`, in this
order. -/
theorem stop_flush_is_last (mc : MachConsts) (rproc : Rproc) (s : State) :
    davinci_rproc_stop mc rproc s =
      (0, { s with log := s.log ++
              [Event.ioremap IoMem.psc,
               Event.writel NEXT_ENABLED IoMem.psc (mc.MDCTL + 4 * mc.DA8XX_LPSC0_GEM),
               Event.clk_disable s.dsp_clk, Event.clk_put s.dsp_clk,
               Event.iounmap IoMem.psc, Event.free_irq 28 rproc.priv,
               Event.flush_work_sync] }) ∧
    (davinci_rproc_stop mc rproc s).2.log.getLast? = some Event.flush_work_sync := by
  simp [davinci_rproc_stop, emit, raw_writel, NEXT_ENABLED, WORD]

/-! ## `davinci_rproc_kick` -/

theorem kick_loop_spec (base : IoMem) (pre : List Nat) (v : Nat) (rest : List Nat)
    (hpre : ∀ x ∈ pre, x.testBit 2 = true) (hv : v.testBit 2 = false) :
    kick_loop base (pre ++ v :: rest) =
      (pre.map (Event.readl base SYSCFG_CHIPSIG_OFFSET) ++
         [Event.readl base SYSCFG_CHIPSIG_OFFSET v], true) := by
  induction pre with
  | nil =>
    have h : ¬ (v &&& SYSCFG_CHIPINT2 ≠ 0) := by rw [chipint2_test]; simp [hv]
    simp only [List.nil_append, kick_loop, if_neg h, List.map_nil]
  | cons x xs ih =>
    have hx : x &&& SYSCFG_CHIPINT2 ≠ 0 := (chipint2_test x).2 (hpre x (by simp))
    have ih2 := ih (fun y hy => hpre y (by simp [hy]))
    simp only [List.cons_append, kick_loop, if_pos hx, List.append_eq, ih2, List.map_cons]

theorem kick_loop_spinning (base : IoMem) (reads : List Nat)
    (h : ∀ x ∈ reads, x.testBit 2 = true) :
    kick_loop base reads = (reads.map (Event.readl base SYSCFG_CHIPSIG_OFFSET), false) := by
  induction reads with
  | nil => simp [kick_loop]
  | cons x xs ih =>
    have hx : x &&& SYSCFG_CHIPINT2 ≠ 0 := (chipint2_test x).2 (h x (by simp))
    have ih2 := ih (fun y hy => h y (by simp [hy]))
    simp only [kick_loop, if_pos hx, ih2, List.map_cons]

/-- C7: for every sequence of Status read values whose first `k` values have bit 2
set and whose next value has bit 2 clear, `davinci_rproc_kick` returns; its calls
are exactly those `k + 1` reads of offset 0x174 followed by one write of the
value 4 to offset 0x174, so the write comes right after the read that saw bit 2
clear, and it is the only register write; after the first `k` reads alone the
function has written nothing and has not returned. -/
theorem kick_polls_then_writes (s : State) (pre : List Nat) (v : Nat) (rest : List Nat)
    (hpre : ∀ x ∈ pre, x.testBit 2 = true) (hv : v.testBit 2 = false) :
    davinci_rproc_kick (pre ++ v :: rest) s =
      ({ s with log := s.log ++ (pre.map (Event.readl s.syscfg0_base 0x174) ++
                  [Event.readl s.syscfg0_base 0x174 v,
                   Event.writel 4 s.syscfg0_base 0x174]) }, true) ∧
    (pre.map (Event.readl s.syscfg0_base 0x174) ++
      [Event.readl s.syscfg0_base 0x174 v]).length = pre.length + 1 ∧
    regWrites (davinci_rproc_kick (pre ++ v :: rest) s).1.log =
      regWrites s.log ++ [Event.writel 4 s.syscfg0_base 0x174] ∧
    davinci_rproc_kick pre s =
      ({ s with log := s.log ++ pre.map (Event.readl s.syscfg0_base 0x174) }, false) := by
  have hl := kick_loop_spec s.syscfg0_base pre v rest hpre hv
  have hs := kick_loop_spinning s.syscfg0_base pre hpre
  refine ⟨?_, ?_, ?_, ?_⟩
  · simp [davinci_rproc_kick, hl, emit, raw_writel, SYSCFG_CHIPSIG_OFFSET, SYSCFG_CHIPINT2, WORD]
  · simp
  · simp [davinci_rproc_kick, hl, emit, raw_writel, SYSCFG_CHIPSIG_OFFSET, SYSCFG_CHIPINT2, WORD,
      regWrites, List.filter_map, Function.comp_def]
  · simp [davinci_rproc_kick, hs, SYSCFG_CHIPSIG_OFFSET]

/-- Instance of C7 at Scenario D: bit 2 is set in the reads 4 and 6 and clear in the read 1. -/
theorem kick_polls_then_writes_witness :
    davinci_rproc_kick ([4, 6] ++ 1 :: [4]) State.init =
      ({ State.init with log := State.init.log ++
            (([4, 6] : List Nat).map (Event.readl State.init.syscfg0_base 0x174) ++
                  [Event.readl State.init.syscfg0_base 0x174 1,
                   Event.writel 4 State.init.syscfg0_base 0x174]) }, true) ∧
    (([4, 6] : List Nat).map (Event.readl State.init.syscfg0_base 0x174) ++
      [Event.readl State.init.syscfg0_base 0x174 1]).length = ([4, 6] : List Nat).length + 1 ∧
    regWrites (davinci_rproc_kick ([4, 6] ++ 1 :: [4]) State.init).1.log =
      regWrites State.init.log ++ [Event.writel 4 State.init.syscfg0_base 0x174] ∧
    davinci_rproc_kick [4, 6] State.init =
      ({ State.init with log := State.init.log ++
          ([4, 6] : List Nat).map (Event.readl State.init.syscfg0_base 0x174) }, false) :=
  kick_polls_then_writes State.init [4, 6] 1 [4] (by decide) (by decide)

/-! ## `davinci_rproc_callback` -/

/-- C8: for every value read from the Status register (offset 0x174),
`davinci_rproc_callback` returns `IRQ_HANDLED`; if bit 0 of the value is set its
calls after the read are exactly one `schedule_work` followed by one write of the
value 1 to the Clear register at offset 0x178; if bit 0 is clear it makes no call
after the read. -/
theorem callback_handles (status : Nat) (sched : Bool) (s : State) :
    davinci_rproc_callback status sched s =
      (IRQ_HANDLED,
       { s with log := s.log ++
          (if status.testBit 0 = true then
             [Event.readl s.syscfg0_base 0x174 status, Event.schedule_work sched,
              Event.writel 1 s.syscfg0_base 0x178]
           else [Event.readl s.syscfg0_base 0x174 status]) }) := by
  by_cases hb : status.testBit 0 = true
  · have h := (chipint0_test status).2 hb
    simp only [davinci_rproc_callback, if_pos h, if_pos hb]
    simp [emit, raw_writel, SYSCFG_CHIPSIG_OFFSET, SYSCFG_CHIPSIG_CLR_OFFSET, SYSCFG_CHIPINT0, WORD]
  · have h : ¬ (status &&& SYSCFG_CHIPINT0 ≠ 0) := fun hc => hb ((chipint0_test status).1 hc)
    simp only [davinci_rproc_callback, if_neg h, if_neg hb]
    simp [emit, SYSCFG_CHIPSIG_OFFSET]

/-! ## `handle_event` -/

theorem handle_event_loop_spec (n r : Nat) (rest : List Nat) (hr : r ≠ IRQ_HANDLED) :
    handle_event_loop (List.replicate n IRQ_HANDLED ++ r :: rest) =
      (List.replicate n (Event.rproc_vq_interrupt 0 IRQ_HANDLED) ++
         [Event.rproc_vq_interrupt 0 r], true) := by
  induction n with
  | zero =>
    have h : ¬ (IRQ_HANDLED = r) := fun h => hr h.symm
    simp only [List.replicate_zero, List.nil_append, handle_event_loop, if_neg h]
  | succ k ih =>
    simp only [List.replicate_succ, List.cons_append, handle_event_loop, if_true, List.append_eq, ih]

/-- C9: for every `n`, when `rproc_vq_interrupt(rproc, 0)` returns `IRQ_HANDLED`
`n` times and then another value, one run of `handle_event` returns; its calls are
exactly those `n + 1` calls on queue index 0 followed by exactly one
`rproc_vq_interrupt(rproc, 1)`, whatever that call returns. -/
theorem handle_event_drains_then_notifies (n r : Nat) (rest : List Nat) (ret1 : Nat) (s : State)
    (hr : r ≠ IRQ_HANDLED) :
    handle_event (List.replicate n IRQ_HANDLED ++ r :: rest) ret1 s =
      ({ s with log := s.log ++
          (List.replicate n (Event.rproc_vq_interrupt 0 IRQ_HANDLED) ++
            [Event.rproc_vq_interrupt 0 r, Event.rproc_vq_interrupt 1 ret1]) }, true) ∧
    (List.replicate n (Event.rproc_vq_interrupt 0 IRQ_HANDLED) ++
      [Event.rproc_vq_interrupt 0 r]).length = n + 1 := by
  have hl := handle_event_loop_spec n r rest hr
  simp [handle_event, hl, emit]

/-- Instance of C9 with two entries in vring 0. -/
theorem handle_event_drains_then_notifies_witness :
    handle_event (List.replicate 2 IRQ_HANDLED ++ IRQ_NONE :: []) 0 State.init =
      ({ State.init with log := State.init.log ++
          (List.replicate 2 (Event.rproc_vq_interrupt 0 IRQ_HANDLED) ++
            [Event.rproc_vq_interrupt 0 IRQ_NONE, Event.rproc_vq_interrupt 1 0]) }, true) ∧
    (List.replicate 2 (Event.rproc_vq_interrupt 0 IRQ_HANDLED) ++
      [Event.rproc_vq_interrupt 0 IRQ_NONE]).length = 2 + 1 :=
  handle_event_drains_then_notifies 2 IRQ_NONE [] 0 State.init (by decide)

/-! ## Reset is asserted whenever the boot address is programmed -/

theorem getLast?_append_all (a b : List Nat) (ha : a.getLast? = some NEXT_ENABLED)
    (hb : ∀ v ∈ b, v = NEXT_ENABLED) : (a ++ b).getLast? = some NEXT_ENABLED := by
  rw [List.getLast?_append]
  cases hl : b.getLast? with
  | none => simpa using ha
  | some v =>
    have hv : v = NEXT_ENABLED := hb v (List.mem_of_getLast?_eq_some hl)
    simp [hv]

theorem haltedAtBoot_of_no_trigger (mc : MachConsts) (l : List Event)
    (h : ∀ e ∈ l, isBootCfgWrite e = false ∧ isClkEnable e = false) : HaltedAtBoot mc l := by
  intro pre e post hsplit htrig
  have he : e ∈ l := by rw [hsplit]; simp
  have := h e he
  rcases htrig with ht | ht <;> simp [this] at ht

theorem haltedAtBoot_append (mc : MachConsts) (l t : List Event)
    (hinv : HaltedAtBoot mc l) (hlast : (resetWrites mc l).getLast? = some NEXT_ENABLED)
    (ht : ∀ v ∈ resetWrites mc t, v = NEXT_ENABLED) :
    HaltedAtBoot mc (l ++ t) ∧ (resetWrites mc (l ++ t)).getLast? = some NEXT_ENABLED := by
  refine ⟨?_, ?_⟩
  · intro pre e post hsplit htrig
    rcases List.append_eq_append_iff.1 hsplit with ⟨a, hpre, hta⟩ | ⟨c, hl, hc⟩
    · -- the event lies in `t`
      rw [hpre, resetWrites_append]
      apply getLast?_append_all _ _ hlast
      intro v hv
      apply ht v
      rw [hta, resetWrites_append]
      exact List.mem_append_left _ hv
    · -- the event lies in `l`, or is the head of `t`
      cases c with
      | nil =>
        simp only [List.append_nil] at hl
        rw [← hl]; exact hlast
      | cons x xs =>
        simp only [List.cons_append, List.cons.injEq] at hc
        rw [← hc.1] at hl
        exact hinv pre e xs hl htrig
  · rw [resetWrites_append]
    exact getLast?_append_all _ _ hlast ht

theorem kick_loop_resetWrites (mc : MachConsts) (base : IoMem) (reads : List Nat) :
    resetWrites mc (kick_loop base reads).1 = [] := by
  induction reads with
  | nil => simp [kick_loop, resetWrites]
  | cons v vs ih =>
    by_cases h : v &&& SYSCFG_CHIPINT2 ≠ 0
    · simp only [kick_loop, if_pos h]
      simpa [resetWrites] using ih
    · simp only [kick_loop, if_neg h]
      simp [resetWrites]

theorem handle_event_loop_resetWrites (mc : MachConsts) (rets : List Nat) :
    resetWrites mc (handle_event_loop rets).1 = [] := by
  induction rets with
  | nil => simp [handle_event_loop, resetWrites]
  | cons r rs ih =>
    by_cases h : IRQ_HANDLED = r
    · simp only [handle_event_loop, if_pos h]
      simpa [resetWrites] using ih
    · simp only [handle_event_loop, if_neg h]
      simp [resetWrites]

theorem exec_syscfg0_base (mc : MachConsts) (op : Op) (s : State)
    (hb : s.syscfg0_base ≠ IoMem.psc) : (op.exec mc s).syscfg0_base ≠ IoMem.psc := by
  cases op with
  | start rproc irq_ret clk =>
    simp only [Op.exec, davinci_rproc_start, emit, raw_writel]
    split_ifs <;> simp [hb]
  | stop rproc => simpa [Op.exec, davinci_rproc_stop, emit, raw_writel] using hb
  | kick reads =>
    simp only [Op.exec, davinci_rproc_kick, emit, raw_writel]
    split_ifs <;> simp [hb]
  | callback status sched =>
    simp only [Op.exec, davinci_rproc_callback, emit, raw_writel]
    split_ifs <;> simp [hb]
  | work rets ret1 =>
    simp only [Op.exec, handle_event, emit]
    split_ifs <;> simp [hb]

theorem exec_extends_log (mc : MachConsts) (op : Op) (s : State)
    (hb : s.syscfg0_base ≠ IoMem.psc) :
    ∃ t, (op.exec mc s).log = s.log ++ t ∧ ∀ v ∈ resetWrites mc t, v = NEXT_ENABLED := by
  cases op with
  | start rproc irq_ret clk =>
    by_cases hi : irq_ret ≠ 0
    · exact ⟨[Event.INIT_WORK, Event.request_irq 28 rproc.priv irq_ret],
        by simp [Op.exec, davinci_rproc_start, emit, hi], by simp [resetWrites]⟩
    by_cases hm : rproc.bootaddr &&& 0x3ff ≠ 0
    · exact ⟨[Event.INIT_WORK, Event.request_irq 28 rproc.priv irq_ret],
        by simp [Op.exec, davinci_rproc_start, emit, hi, hm], by simp [resetWrites]⟩
    by_cases hc : IS_ERR_OR_NULL clk = true
    · exact ⟨[Event.INIT_WORK, Event.request_irq 28 rproc.priv irq_ret, Event.clk_get clk],
        by simp [Op.exec, davinci_rproc_start, emit, hi, hm, hc], by simp [resetWrites]⟩
    · exact ⟨[Event.INIT_WORK, Event.request_irq 28 rproc.priv irq_ret, Event.clk_get clk,
          Event.ioremap IoMem.syscfg0,
          Event.writel (rproc.bootaddr % WORD) IoMem.syscfg0 HOST1CFG, Event.clk_enable clk],
        by simp [Op.exec, davinci_rproc_start, emit, raw_writel, hi, hm, hc],
        by simp [resetWrites]⟩
  | stop rproc =>
    exact ⟨[Event.ioremap IoMem.psc,
          Event.writel NEXT_ENABLED IoMem.psc (mc.MDCTL + 4 * mc.DA8XX_LPSC0_GEM),
          Event.clk_disable s.dsp_clk, Event.clk_put s.dsp_clk,
          Event.iounmap IoMem.psc, Event.free_irq 28 rproc.priv, Event.flush_work_sync],
      by simp [Op.exec, davinci_rproc_stop, emit, raw_writel, NEXT_ENABLED, WORD],
      by simp [resetWrites]⟩
  | kick reads =>
    by_cases hd : (kick_loop s.syscfg0_base reads).2 = true
    · refine ⟨(kick_loop s.syscfg0_base reads).1 ++
          [Event.writel (SYSCFG_CHIPINT2 % WORD) s.syscfg0_base SYSCFG_CHIPSIG_OFFSET],
        by simp [Op.exec, davinci_rproc_kick, emit, raw_writel, hd], ?_⟩
      intro v hv
      rw [resetWrites_append, kick_loop_resetWrites] at hv
      cases hbase : s.syscfg0_base with
      | null => simp [resetWrites, hbase] at hv
      | syscfg0 => simp [resetWrites, hbase] at hv
      | psc => exact absurd hbase hb
    · exact ⟨(kick_loop s.syscfg0_base reads).1,
        by simp [Op.exec, davinci_rproc_kick, hd],
        by simp [kick_loop_resetWrites]⟩
  | callback status sched =>
    by_cases h0 : status &&& SYSCFG_CHIPINT0 ≠ 0
    · refine ⟨[Event.readl s.syscfg0_base SYSCFG_CHIPSIG_OFFSET status, Event.schedule_work sched,
          Event.writel (SYSCFG_CHIPINT0 % WORD) s.syscfg0_base SYSCFG_CHIPSIG_CLR_OFFSET],
        by simp [Op.exec, davinci_rproc_callback, emit, raw_writel, h0], ?_⟩
      intro v hv
      cases hbase : s.syscfg0_base with
      | null => simp [resetWrites, hbase] at hv
      | syscfg0 => simp [resetWrites, hbase] at hv
      | psc => exact absurd hbase hb
    · exact ⟨[Event.readl s.syscfg0_base SYSCFG_CHIPSIG_OFFSET status],
        by simp [Op.exec, davinci_rproc_callback, emit, h0], by simp [resetWrites]⟩
  | work rets ret1 =>
    by_cases hd : (handle_event_loop rets).2 = true
    · refine ⟨(handle_event_loop rets).1 ++ [Event.rproc_vq_interrupt 1 ret1],
        by simp [Op.exec, handle_event, emit, hd], ?_⟩
      intro v hv
      rw [resetWrites_append, handle_event_loop_resetWrites] at hv
      simp [resetWrites] at hv
    · exact ⟨(handle_event_loop rets).1,
        by simp [Op.exec, handle_event, hd],
        by simp [handle_event_loop_resetWrites]⟩

theorem run_haltedAtBoot (mc : MachConsts) (ops : List Op) (s : State)
    (hb : s.syscfg0_base ≠ IoMem.psc) (hinv : HaltedAtBoot mc s.log)
    (hlast : (resetWrites mc s.log).getLast? = some NEXT_ENABLED) :
    HaltedAtBoot mc (run mc ops s).log := by
  induction ops generalizing s with
  | nil => simpa [run] using hinv
  | cons op ops ih =>
    obtain ⟨t, hlog, ht⟩ := exec_extends_log mc op s hb
    have hstep := haltedAtBoot_append mc s.log t hinv hlast ht
    rw [← hlog] at hstep
    exact ih (op.exec mc s) (exec_syscfg0_base mc op s hb) hstep.1 hstep.2

theorem probe_success_log (mc : MachConsts) (pdev : Nat) (dma_ret : Int) (rproc : Nat)
    (reg_ret : Int)
    (hok : (davinci_rproc_probe mc pdev dma_ret rproc reg_ret State.init).1 = 0) :
    (davinci_rproc_probe mc pdev dma_ret rproc reg_ret State.init).2 =
      { State.init with log :=
          [Event.dma_set_coherent_mask 0, Event.rproc_alloc rproc,
           Event.platform_set_drvdata pdev rproc, Event.rproc_register 0,
           Event.ioremap IoMem.psc,
           Event.writel NEXT_ENABLED IoMem.psc (mc.MDCTL + 4 * mc.DA8XX_LPSC0_GEM),
           Event.iounmap IoMem.psc] } := by
  by_cases hd : dma_ret ≠ 0
  · simp [davinci_rproc_probe, hd] at hok
  by_cases hr : rproc % WORD = 0
  · simp [davinci_rproc_probe, hd, hr, ENOMEM] at hok
  by_cases hg : reg_ret ≠ 0
  · simp [davinci_rproc_probe, hd, hr, hg] at hok
  · have hd0 : dma_ret = 0 := by simpa using hd
    have hg0 : reg_ret = 0 := by simpa using hg
    have hr0 : ¬ rproc % 4294967296 = 0 := by simpa [WORD] using hr
    simp [davinci_rproc_probe, hd0, hr0, hg0, emit, raw_writel, State.init, NEXT_ENABLED, WORD]

/-- C10: in every sequence of operations that begins, at module load, with a
successful `davinci_rproc_probe` and continues with any sequence of start, stop,
kick, interrupt-handler and work-function invocations (whatever their calls
return), at every write to the boot-config register and at every `clk_enable`
the most recent value written to the reset-control register is `NEXT_ENABLED`,
the halt pattern: its local-reset bit is 0 (bit 8, `LRST`, in the source; also
bit 3) and its bits 0-1 are 3. -/
theorem reset_asserted_at_boot (mc : MachConsts) (pdev : Nat) (dma_ret : Int) (rproc : Nat)
    (reg_ret : Int) (ops : List Op)
    (hok : (davinci_rproc_probe mc pdev dma_ret rproc reg_ret State.init).1 = 0) :
    (∀ pre e post,
      (run mc ops (davinci_rproc_probe mc pdev dma_ret rproc reg_ret State.init).2).log
        = pre ++ e :: post →
      (isBootCfgWrite e = true ∨ isClkEnable e = true) →
      (resetWrites mc pre).getLast? = some NEXT_ENABLED) ∧
    NEXT_ENABLED &&& LRST = 0 ∧ NEXT_ENABLED.testBit 3 = false ∧ NEXT_ENABLED &&& 3 = 3 := by
  refine ⟨?_, by decide, by decide, by decide⟩
  have hp := probe_success_log mc pdev dma_ret rproc reg_ret hok
  have h := run_haltedAtBoot mc ops (davinci_rproc_probe mc pdev dma_ret rproc reg_ret State.init).2
    (by rw [hp]; simp [State.init])
    (by
      rw [hp]
      apply haltedAtBoot_of_no_trigger
      intro e he
      simp at he
      rcases he with h | h | h | h | h | h | h <;> subst h <;>
        simp [isBootCfgWrite, isClkEnable])
    (by rw [hp]; simp [resetWrites])
  exact h

/-- Instance of C10 on DA850: probe, start, kick, interrupt, stop and a second start. -/
theorem reset_asserted_at_boot_witness :
    (∀ pre e post,
      (run da850 [Op.start ⟨0x80000400, 7, 9⟩ 0 0xc0001000, Op.kick [4, 0],
                  Op.callback 1 true, Op.stop ⟨0x80000400, 7, 9⟩,
                  Op.start ⟨0x80000400, 7, 9⟩ 0 0xc0001000]
        (davinci_rproc_probe da850 7 0 5 0 State.init).2).log
        = pre ++ e :: post →
      (isBootCfgWrite e = true ∨ isClkEnable e = true) →
      (resetWrites da850 pre).getLast? = some NEXT_ENABLED) ∧
    NEXT_ENABLED &&& LRST = 0 ∧ NEXT_ENABLED.testBit 3 = false ∧ NEXT_ENABLED &&& 3 = 3 :=
  reset_asserted_at_boot da850 7 0 5 0
    [Op.start ⟨0x80000400, 7, 9⟩ 0 0xc0001000, Op.kick [4, 0],
     Op.callback 1 true, Op.stop ⟨0x80000400, 7, 9⟩,
     Op.start ⟨0x80000400, 7, 9⟩ 0 0xc0001000] (by decide)

end DavinciRproc
